import Mathlib

/-!
Shallow embedding of the TradeSense trading bot's risk-management and
order-execution logic (src/risk_management.py, src/trading.py, src/utils.py).
Monetary quantities and prices are modelled as rationals; Python's `round`
builtin (banker's rounding, round-half-to-even) is modelled by `pyRound`.
All logging calls in the source are side effects only and are dropped.
-/

namespace TradeSense

/-- Python's builtin `round(x)` on exact values: round half to even. -/
def pyRound (x : ℚ) : ℤ :=
  let f := ⌊x⌋
  let frac := x - (f : ℚ)
  if frac < 1/2 then f
  else if 1/2 < frac then f + 1
  else if f % 2 = 0 then f else f + 1

/-- Python's `round(x, 2)`: round to two decimal places (ties to even). -/
def roundTo2 (x : ℚ) : ℚ :=
  (pyRound (x * 100) : ℚ) / 100

/-- Python's `round(x, d)`: round to `d` decimal places (ties to even). -/
def roundToDigits (x : ℚ) (d : ℕ) : ℚ :=
  (pyRound (x * 10 ^ d) : ℚ) / 10 ^ d

/-- utils.safe_divide: division returning a default (0 unless stated) when
the denominator is zero. -/
def safe_divide (a b : ℚ) (default : ℚ := 0) : ℚ :=
  if b = 0 then default else a / b

/-- Account snapshot as returned by the terminal API (mt5.account_info()). -/
structure AccountInfo where
  balance : ℚ
  equity : ℚ
  margin : ℚ
  margin_free : ℚ
  margin_level : ℚ
  deriving Repr, DecidableEq

/-- Instrument metadata as returned by mt5.symbol_info(symbol). -/
structure SymbolInfo where
  point : ℚ
  digits : ℕ
  volume_min : ℚ
  volume_max : ℚ
  volume_step : ℚ
  trade_contract_size : ℚ
  deriving Repr, DecidableEq

/-- Unit tag for stop-loss / take-profit configuration values
(the source compares configuration strings; `other` covers any
unrecognized string). -/
inductive PriceUnit where
  | pips
  | price
  | percent
  | other
  deriving Repr, DecidableEq

/-- The slice of the configuration dictionary read by the risk manager and
the order executor (defaults in src/config.py). -/
structure Config where
  max_daily_loss : ℚ
  daily_profit_target : ℚ
  max_drawdown : ℚ
  auto_stop_drawdown : Bool
  max_positions : ℕ
  max_loss_streak : ℕ
  risk_percent : ℚ
  auto_lot : Bool
  lot_size : ℚ
  sl_value : ℚ
  sl_unit : PriceUnit
  tp_value : ℚ
  tp_unit : PriceUnit
  trailing_distance : ℚ
  deriving Repr, DecidableEq

/-- RiskManager.daily_stats dictionary (the date field `last_reset` is
handled separately through the reset event, see `daily_reset`). -/
structure DailyStats where
  start_balance : ℚ
  current_profit : ℚ
  trades_today : ℕ
  winning_trades : ℕ
  losing_trades : ℕ
  consecutive_losses : ℕ
  deriving Repr, DecidableEq

/-- The initial daily_stats assigned in RiskManager.__init__. -/
def initDailyStats : DailyStats :=
  { start_balance := 0, current_profit := 0, trades_today := 0,
    winning_trades := 0, losing_trades := 0, consecutive_losses := 0 }

/-- First-call bootstrap inside _check_daily_loss_limit: when
start_balance is still 0 it is seeded from the current balance. -/
def bootstrapStart (a : AccountInfo) (s : DailyStats) : DailyStats :=
  if s.start_balance = 0 then { s with start_balance := a.balance } else s

/-- RiskManager._check_daily_loss_limit (risk_management.py lines 102-124).
Note the source passes `start_balance * 100` as the DENOMINATOR of
safe_divide, so the computed value is (start - balance) / (start * 100),
not (start - balance) / start * 100. -/
def check_daily_loss_limit (cfg : Config) (a : AccountInfo) (s : DailyStats) : Bool :=
  let s1 := bootstrapStart a s
  let current_loss_pct := safe_divide (s1.start_balance - a.balance) (s1.start_balance * 100)
  if current_loss_pct > cfg.max_daily_loss then false else true

/-- RiskManager._check_daily_profit_target (lines 126-150): computes the
profit percentage and logs when the target is reached, but the blocking
`return False` is commented out in the source, so both branches return
True. -/
def check_daily_profit_target (cfg : Config) (a : AccountInfo) (s : DailyStats) : Bool :=
  if s.start_balance = 0 then true
  else
    let current_profit_pct := safe_divide (a.balance - s.start_balance) (s.start_balance * 100)
    if current_profit_pct ≥ cfg.daily_profit_target then true else true

/-- RiskManager._check_max_drawdown (lines 152-180). As in the daily-loss
check, the source divides by `peak_balance * 100`. -/
def check_max_drawdown (cfg : Config) (a : AccountInfo) (s : DailyStats) : Bool :=
  if cfg.auto_stop_drawdown = false then true
  else if s.start_balance = 0 then true
  else
    let peak_balance := max s.start_balance a.equity
    let current_drawdown := safe_divide (peak_balance - a.equity) (peak_balance * 100)
    if current_drawdown > cfg.max_drawdown then false else true

/-- RiskManager._check_position_limits (lines 182-197). -/
def check_position_limits (cfg : Config) (positions_total : ℕ) : Bool :=
  if positions_total ≥ cfg.max_positions then false else true

/-- RiskManager._check_loss_streak (lines 199-213). -/
def check_loss_streak (cfg : Config) (s : DailyStats) : Bool :=
  if s.consecutive_losses ≥ cfg.max_loss_streak then false else true

/-- RiskManager._check_margin_requirements (lines 215-239). -/
def check_margin_requirements (a : AccountInfo) : Bool :=
  let margin_level := if a.margin > 0 then a.margin_level else 999999
  if margin_level < 200 then false
  else if a.margin_free < a.balance * 0.1 then false
  else true

/-- RiskManager.can_trade (lines 33-75), after the daily reset has been
applied (the date-rollover reset is an environmental effect modelled
separately by `daily_reset`). Returns false when the account snapshot is
unavailable, otherwise ANDs the six checks; the daily-loss check's
start-balance bootstrap is visible to the later checks. -/
def can_trade (cfg : Config) (acct : Option AccountInfo) (positions_total : ℕ)
    (s : DailyStats) : Bool :=
  match acct with
  | none => false
  | some a =>
    let s1 := bootstrapStart a s
    check_daily_loss_limit cfg a s &&
    check_daily_profit_target cfg a s1 &&
    check_max_drawdown cfg a s1 &&
    check_position_limits cfg positions_total &&
    check_loss_streak cfg s1 &&
    check_margin_requirements a

/-- RiskManager.record_trade_result (lines 352-388), restricted to the
daily_stats update (the appended history record and the emergency-stop
probe have no effect on daily_stats). A trade counts as winning exactly
when profit > 0. -/
def record_trade_result (profit : ℚ) (s : DailyStats) : DailyStats :=
  let s1 := { s with trades_today := s.trades_today + 1,
                     current_profit := s.current_profit + profit }
  if profit > 0 then
    { s1 with winning_trades := s1.winning_trades + 1, consecutive_losses := 0 }
  else
    { s1 with losing_trades := s1.losing_trades + 1,
              consecutive_losses := s1.consecutive_losses + 1 }

/-- RiskManager._check_daily_reset (lines 77-100): the update applied when
the stored date is before today. start_balance is re-seeded from the
account snapshot when one is available, and all counters are zeroed. -/
def daily_reset (acct : Option AccountInfo) (s : DailyStats) : DailyStats :=
  let s0 := match acct with
    | some a => { s with start_balance := a.balance }
    | none => s
  { s0 with current_profit := 0, trades_today := 0, winning_trades := 0,
            losing_trades := 0, consecutive_losses := 0 }

/-- An event mutating daily_stats: a recorded trade result or a
date-rollover reset. -/
inductive StatsEvent where
  | record (profit : ℚ)
  | reset (acct : Option AccountInfo)

/-- Apply one daily_stats event. -/
def applyEvent (s : DailyStats) (e : StatsEvent) : DailyStats :=
  match e with
  | .record p => record_trade_result p s
  | .reset a => daily_reset a s

/-- Run a sequence of daily_stats events from the initial state. -/
def runEvents (events : List StatsEvent) : DailyStats :=
  events.foldl applyEvent initDailyStats

/-- Pip size used in RiskManager._calculate_risk_based_lot line 297:
`symbol_info.point * 10 if JPY in symbol else symbol_info.point * 10`.
The JPY membership test is abstracted into the Boolean `jpy`. -/
def pip_size_risk (jpy : Bool) (point : ℚ) : ℚ :=
  if jpy then point * 10 else point * 10

/-- Pip size used in TradingEngine._calculate_tp_sl lines 678 and 695
(identical expression at both occurrences). -/
def pip_size_tp_sl (jpy : Bool) (point : ℚ) : ℚ :=
  if jpy then point * 10 else point * 10

/-- Pip size used in TradingEngine._update_trailing_stop line 748. -/
def pip_size_trailing (jpy : Bool) (point : ℚ) : ℚ :=
  if jpy then point * 10 else point * 10

/-- utils.calculate_pip_value (utils.py lines 119-143) with the symbol
already resolved: pip size 0.01 for JPY symbols, 0.0001 otherwise, times
lot size times contract size. -/
def calculate_pip_value (jpy : Bool) (lot contract_size : ℚ) : ℚ :=
  (if jpy then (0.01 : ℚ) else 0.0001) * lot * contract_size

/-- RiskManager._calculate_risk_based_lot (lines 280-319). In the
percent branch the source divides by pip_size; a zero pip size raises
ZeroDivisionError in Python, caught by the enclosing handler which
returns 0.01 — modelled by the explicit pip-size-zero branch. -/
def calculate_risk_based_lot (cfg : Config) (risk_amount : ℚ) (jpy : Bool)
    (si : SymbolInfo) (signal_price : ℚ) : ℚ :=
  let sl_pips₀ : Option ℚ :=
    match cfg.sl_unit with
    | .pips => some cfg.sl_value
    | .percent =>
      if signal_price > 0 then
        let sl_distance := signal_price * (cfg.sl_value / 100)
        let pip_size := pip_size_risk jpy si.point
        if pip_size = 0 then none else some (sl_distance / pip_size)
      else some 25
    | _ => some 25
  match sl_pips₀ with
  | none => 0.01
  | some sl_pips₁ =>
    let sl_pips := if sl_pips₁ ≤ 0 then 25 else sl_pips₁
    let pip_value₁ := calculate_pip_value jpy 1 si.trade_contract_size
    let pip_value := if pip_value₁ ≤ 0 then 10 else pip_value₁
    safe_divide risk_amount (sl_pips * pip_value)

/-- RiskManager._apply_lot_limits (lines 321-350): clamp to the symbol
minimum, cap by 10 percent of balance / 1000 and by the symbol maximum,
round to the volume step, re-apply the minimum, then round to 2 decimals.
A zero volume_step raises ZeroDivisionError in Python, caught by the
enclosing handler returning 0.01. -/
def apply_lot_limits (lot : ℚ) (si : SymbolInfo) (balance : ℚ) : ℚ :=
  if si.volume_step = 0 then 0.01
  else
    let l1 := max lot si.volume_min
    let max_lot_by_balance := safe_divide (balance * 0.1) 1000
    let l2 := min l1 max_lot_by_balance
    let l3 := min l2 si.volume_max
    let l4 := (pyRound (l3 / si.volume_step) : ℚ) * si.volume_step
    let l5 := max l4 si.volume_min
    roundTo2 l5

/-- RiskManager.calculate_lot_size (lines 241-278): fails soft to 0.01
when the account snapshot or the symbol metadata is unavailable;
otherwise sizes by risk (or uses the fixed configured lot) and applies
the lot limits. -/
def calculate_lot_size (cfg : Config) (acct : Option AccountInfo)
    (sym : Option SymbolInfo) (jpy : Bool) (signal_price : ℚ) : ℚ :=
  match acct with
  | none => 0.01
  | some a =>
    match sym with
    | none => 0.01
    | some si =>
      let risk_amount := a.balance * (cfg.risk_percent / 100)
      let lot :=
        if cfg.auto_lot then
          calculate_risk_based_lot cfg risk_amount jpy si signal_price
        else cfg.lot_size
      apply_lot_limits lot si a.balance

/-- TradingEngine._calculate_tp_sl (trading.py lines 665-719): take-profit
and stop-loss prices from the configured value and unit, direction-aware,
rounded to the symbol's digits (zero when no level is produced). -/
def calculate_tp_sl (cfg : Config) (jpy : Bool) (si : SymbolInfo)
    (is_buy : Bool) (price : ℚ) : ℚ × ℚ :=
  let tp_price :=
    match cfg.tp_unit with
    | .pips =>
      let pip_value := pip_size_tp_sl jpy si.point
      if is_buy then price + cfg.tp_value * pip_value
      else price - cfg.tp_value * pip_value
    | .price => cfg.tp_value
    | .percent =>
      if is_buy then price * (1 + cfg.tp_value / 100)
      else price * (1 - cfg.tp_value / 100)
    | .other => 0
  let sl_price :=
    match cfg.sl_unit with
    | .pips =>
      let pip_value := pip_size_tp_sl jpy si.point
      if is_buy then price - cfg.sl_value * pip_value
      else price + cfg.sl_value * pip_value
    | .price => cfg.sl_value
    | .percent =>
      if is_buy then price * (1 - cfg.sl_value / 100)
      else price * (1 + cfg.sl_value / 100)
    | .other => 0
  (if tp_price > 0 then roundToDigits tp_price si.digits else 0,
   if sl_price > 0 then roundToDigits sl_price si.digits else 0)

/-- TradingEngine._update_trailing_stop (trading.py lines 743-762):
returns the new stop level submitted to _modify_position, or none when
the stop is left unchanged. For a buy position the current price is the
bid; for a sell it is the ask. -/
def update_trailing_stop (is_buy : Bool) (position_sl : ℚ) (bid ask : ℚ)
    (trailing_distance : ℚ) (jpy : Bool) (point : ℚ) : Option ℚ :=
  let pip_value := pip_size_trailing jpy point
  let current_price := if is_buy then bid else ask
  if is_buy then
    let new_sl := current_price - trailing_distance * pip_value
    if position_sl = 0 ∨ new_sl > position_sl then some new_sl else none
  else
    let new_sl := current_price + trailing_distance * pip_value
    if position_sl = 0 ∨ new_sl < position_sl then some new_sl else none

/-- The default risk configuration shipped in src/config.py (lines 34-52). -/
def defaultConfig : Config :=
  { max_daily_loss := 5, daily_profit_target := 10, max_drawdown := 5,
    auto_stop_drawdown := true, max_positions := 10, max_loss_streak := 3,
    risk_percent := 1, auto_lot := true, lot_size := 0.01,
    sl_value := 25, sl_unit := .pips, tp_value := 50, tp_unit := .pips,
    trailing_distance := 15 }

/-- The daily-stats invariant tracked by the spec. -/
def statsInv (s : DailyStats) : Prop :=
  s.winning_trades + s.losing_trades = s.trades_today

lemma bootstrapStart_consecutive (a : AccountInfo) (s : DailyStats) :
    (bootstrapStart a s).consecutive_losses = s.consecutive_losses := by
  unfold bootstrapStart; split <;> rfl

lemma check_daily_profit_target_true (cfg : Config) (a : AccountInfo)
    (s : DailyStats) : check_daily_profit_target cfg a s = true := by
  unfold check_daily_profit_target
  split <;> simp

lemma pyRound_intCast (k : ℤ) : pyRound (k : ℚ) = k := by
  simp [pyRound, Int.floor_intCast]

lemma pyRound_le_of_le {x : ℚ} {k : ℤ} (h : x ≤ (k : ℚ)) : pyRound x ≤ k := by
  have hfk : ⌊x⌋ ≤ k := by
    have := Int.floor_mono h
    simpa using this
  simp only [pyRound]
  split_ifs with h1 h2 h3
  · exact hfk
  all_goals
    push_neg at h1
    have hlt : (⌊x⌋ : ℚ) < x := by
      have h0 : (0 : ℚ) < x - ⌊x⌋ := lt_of_lt_of_le (by norm_num) h1
      linarith
    have hk : ⌊x⌋ < k := by exact_mod_cast lt_of_lt_of_le hlt h
    omega

lemma max_int_mul {s x y : ℚ} (hx : ∃ k : ℤ, x = (k : ℚ) * s)
    (hy : ∃ k : ℤ, y = (k : ℚ) * s) : ∃ k : ℤ, max x y = (k : ℚ) * s := by
  rcases max_choice x y with h | h <;> rw [h] <;> assumption

lemma roundTo2_eq_self {x : ℚ} (h : ∃ k : ℤ, x * 100 = (k : ℚ)) :
    roundTo2 x = x := by
  obtain ⟨k, hk⟩ := h
  unfold roundTo2
  rw [hk, pyRound_intCast, ← hk]
  ring

lemma applyEvent_inv (s : DailyStats) (e : StatsEvent) (h : statsInv s) :
    statsInv (applyEvent s e) := by
  cases e with
  | record p =>
    unfold statsInv at h ⊢
    simp only [applyEvent, record_trade_result]
    split <;> simp <;> omega
  | reset a =>
    unfold statsInv
    cases a <;> simp [applyEvent, daily_reset]

lemma foldl_applyEvent_inv (events : List StatsEvent) :
    ∀ s : DailyStats, statsInv s → statsInv (events.foldl applyEvent s) := by
  induction events with
  | nil => intro s h; exact h
  | cons e rest ih =>
    intro s h
    exact ih (applyEvent s e) (applyEvent_inv s e h)

end TradeSense

namespace TradeSense

/-- C1: the spec says the daily-loss check blocks when
(start_balance - current_balance) / start_balance * 100 exceeds
max_daily_loss, and that with start 10000, balance 9400 and limit 5 the
6 percent loss makes can_trade false. The source instead passes
start_balance * 100 as the denominator of safe_divide, computing a value
10000 times smaller, so the check passes and can_trade returns true at
exactly the spec's scenario (all other inputs favorable). -/
theorem C1_daily_loss_scenario_not_blocked :
    ((10000 - 9400 : ℚ) / 10000 * 100 = 6 ∧ (6 : ℚ) > 5) ∧
    check_daily_loss_limit defaultConfig
      { balance := 9400, equity := 9400, margin := 0,
        margin_free := 9400, margin_level := 0 }
      { start_balance := 10000, current_profit := 0, trades_today := 0,
        winning_trades := 0, losing_trades := 0, consecutive_losses := 0 } = true ∧
    can_trade defaultConfig
      (some { balance := 9400, equity := 9400, margin := 0,
              margin_free := 9400, margin_level := 0 }) 0
      { start_balance := 10000, current_profit := 0, trades_today := 0,
        winning_trades := 0, losing_trades := 0, consecutive_losses := 0 } = true := by
  refine ⟨⟨by norm_num, by norm_num⟩, ?_, ?_⟩ <;>
  norm_num [can_trade, check_daily_loss_limit, check_daily_profit_target,
    check_max_drawdown, check_position_limits, check_loss_streak,
    check_margin_requirements, bootstrapStart, safe_divide, defaultConfig]

/-- C2: the spec says that with auto-stop enabled, a drawdown
(peak - equity)/peak*100 above max_drawdown makes can_trade false. With
start_balance 10000 and equity 9000 the drawdown is 10 percent against a
5 percent limit, yet the source divides by peak * 100 (value 10000 times
smaller), so the check passes and can_trade returns true; the
disabled-auto-stop half of the claim (check returns true) does hold. -/
theorem C2_drawdown_scenario_not_blocked :
    ((max (10000 : ℚ) 9000 - 9000) / max (10000 : ℚ) 9000 * 100 = 10 ∧ (10 : ℚ) > 5) ∧
    defaultConfig.auto_stop_drawdown = true ∧
    check_max_drawdown defaultConfig
      { balance := 10000, equity := 9000, margin := 0,
        margin_free := 10000, margin_level := 0 }
      { start_balance := 10000, current_profit := 0, trades_today := 0,
        winning_trades := 0, losing_trades := 0, consecutive_losses := 0 } = true ∧
    can_trade defaultConfig
      (some { balance := 10000, equity := 9000, margin := 0,
              margin_free := 10000, margin_level := 0 }) 0
      { start_balance := 10000, current_profit := 0, trades_today := 0,
        winning_trades := 0, losing_trades := 0, consecutive_losses := 0 } = true ∧
    check_max_drawdown { defaultConfig with auto_stop_drawdown := false }
      { balance := 10000, equity := 9000, margin := 0,
        margin_free := 10000, margin_level := 0 }
      { start_balance := 10000, current_profit := 0, trades_today := 0,
        winning_trades := 0, losing_trades := 0, consecutive_losses := 0 } = true := by
  refine ⟨⟨by norm_num, by norm_num⟩, rfl, ?_, ?_, ?_⟩ <;>
  norm_num [can_trade, check_daily_loss_limit, check_daily_profit_target,
    check_max_drawdown, check_position_limits, check_loss_streak,
    check_margin_requirements, bootstrapStart, safe_divide, defaultConfig]

/-- C3 counterexample: with instrument min 0.01, max 0.11, step 0.04 (all
positive), balance 10000 and the default configuration (risk_percent 1,
in (0,50], stop-loss 25 pips, positive), the sized lot is clamped to the
maximum 0.11 and then rounded UP to the step multiple 0.12, which the
re-applied minimum floor does not repair, so the returned lot 0.12
exceeds instrument_max_volume, refuting the claim as stated. -/
theorem C3_lot_limits_counterexample :
    (0 : ℚ) < defaultConfig.risk_percent ∧ defaultConfig.risk_percent ≤ 50 ∧
    (0 : ℚ) < defaultConfig.sl_value ∧
    calculate_lot_size defaultConfig
      (some { balance := 10000, equity := 10000, margin := 0,
              margin_free := 10000, margin_level := 0 })
      (some { point := 0.01, digits := 2, volume_min := 0.01,
              volume_max := 0.11, volume_step := 0.04,
              trade_contract_size := 100 }) false 0 = 0.12 ∧
    ¬ ((0.12 : ℚ) ≤ 0.11) := by
  refine ⟨by norm_num [defaultConfig], by norm_num [defaultConfig],
    by norm_num [defaultConfig], ?_, by norm_num⟩
  norm_num [calculate_lot_size, calculate_risk_based_lot, calculate_pip_value,
    pip_size_risk, apply_lot_limits, safe_divide, roundTo2, pyRound,
    defaultConfig]

/-- C3 amended: under the additional side conditions that the instrument
minimum and maximum volumes are integer multiples of the (positive)
volume step and that the step is itself a multiple of 0.01 (so the final
round-to-2-decimals is the identity), the lot-limit stage returns a
value within the minimum-maximum corridor that is an exact integer
multiple of the step, for every input lot value; in particular the
minimum floor re-applied after rounding keeps the result at or above the
instrument minimum. -/
theorem C3_lot_limits_amended (lot balance : ℚ) (si : SymbolInfo)
    (hstep : 0 < si.volume_step)
    (hcent : ∃ m : ℤ, si.volume_step * 100 = (m : ℚ))
    (hminmul : ∃ a : ℤ, si.volume_min = (a : ℚ) * si.volume_step)
    (hmaxmul : ∃ b : ℤ, si.volume_max = (b : ℚ) * si.volume_step)
    (hle : si.volume_min ≤ si.volume_max) :
    si.volume_min ≤ apply_lot_limits lot si balance ∧
    apply_lot_limits lot si balance ≤ si.volume_max ∧
    ∃ k : ℤ, apply_lot_limits lot si balance = (k : ℚ) * si.volume_step := by
  obtain ⟨m, hm⟩ := hcent
  obtain ⟨b, hb⟩ := hmaxmul
  have hstep0 : si.volume_step ≠ 0 := ne_of_gt hstep
  have hexp : apply_lot_limits lot si balance =
      roundTo2 (max ((pyRound ((min (min (max lot si.volume_min)
        (safe_divide (balance * 0.1) 1000)) si.volume_max) /
          si.volume_step) : ℚ) * si.volume_step) si.volume_min) := by
    simp only [apply_lot_limits]
    rw [if_neg hstep0]
  set x := min (min (max lot si.volume_min) (safe_divide (balance * 0.1) 1000))
    si.volume_max with hx
  set r := (pyRound (x / si.volume_step) : ℚ) * si.volume_step with hr
  have hxmax : x ≤ si.volume_max := min_le_right _ _
  have hdiv : x / si.volume_step ≤ (b : ℚ) := by
    rw [div_le_iff₀ hstep]
    calc x ≤ si.volume_max := hxmax
    _ = (b : ℚ) * si.volume_step := hb
  have hrb : pyRound (x / si.volume_step) ≤ b := pyRound_le_of_le hdiv
  have hrle : r ≤ si.volume_max := by
    rw [hr, hb]
    exact mul_le_mul_of_nonneg_right (by exact_mod_cast hrb) hstep.le
  have hl5mul : ∃ k : ℤ, max r si.volume_min = (k : ℚ) * si.volume_step :=
    max_int_mul ⟨pyRound (x / si.volume_step), hr⟩ hminmul
  have hround : roundTo2 (max r si.volume_min) = max r si.volume_min := by
    obtain ⟨k, hk⟩ := hl5mul
    apply roundTo2_eq_self
    refine ⟨k * m, ?_⟩
    rw [hk, mul_assoc, hm]
    push_cast
    ring
  refine ⟨?_, ?_, ?_⟩
  · rw [hexp, hround]
    exact le_max_right _ _
  · rw [hexp, hround]
    exact max_le hrle hle
  · rw [hexp, hround]
    exact hl5mul

/-- Witness for C3 amended at the common retail instrument limits
min 0.01, max 100, step 0.01 with input lot 0.4 and balance 10000. -/
theorem C3_lot_limits_amended_witness :
    (0 : ℚ) < (0.01 : ℚ) ∧
    ((0.01 : ℚ) ≤ apply_lot_limits 0.4
      { point := 0.01, digits := 2, volume_min := 0.01, volume_max := 100,
        volume_step := 0.01, trade_contract_size := 100 } 10000 ∧
     apply_lot_limits 0.4
      { point := 0.01, digits := 2, volume_min := 0.01, volume_max := 100,
        volume_step := 0.01, trade_contract_size := 100 } 10000 ≤ 100 ∧
     ∃ k : ℤ, apply_lot_limits 0.4
      { point := 0.01, digits := 2, volume_min := 0.01, volume_max := 100,
        volume_step := 0.01, trade_contract_size := 100 } 10000 = (k : ℚ) * 0.01) :=
  ⟨by norm_num,
   C3_lot_limits_amended 0.4 10000 _ (by norm_num) ⟨1, by norm_num⟩
     ⟨1, by norm_num⟩ ⟨10000, by norm_num⟩ (by norm_num)⟩

/-- C4: whenever consecutive_losses has reached max_loss_streak,
can_trade returns false, for every configuration, account snapshot
(present or not), open-position count and daily-stats state. -/
theorem C4_loss_streak_blocks (cfg : Config) (acct : Option AccountInfo)
    (n : ℕ) (s : DailyStats)
    (h : cfg.max_loss_streak ≤ s.consecutive_losses) :
    can_trade cfg acct n s = false := by
  cases acct with
  | none => rfl
  | some a =>
    have hstreak : check_loss_streak cfg (bootstrapStart a s) = false := by
      unfold check_loss_streak
      rw [bootstrapStart_consecutive]
      simp [h]
    simp [can_trade, hstreak]

/-- Witness for C4 at a concrete favorable account state with a streak of
three losses against the default limit of three. -/
theorem C4_loss_streak_blocks_witness :
    defaultConfig.max_loss_streak ≤ 3 ∧
    can_trade defaultConfig
      (some { balance := 10000, equity := 10000, margin := 0,
              margin_free := 10000, margin_level := 0 }) 0
      { start_balance := 10000, current_profit := 0, trades_today := 3,
        winning_trades := 0, losing_trades := 3, consecutive_losses := 3 } = false :=
  ⟨by norm_num [defaultConfig],
   C4_loss_streak_blocks defaultConfig _ 0 _ (by norm_num [defaultConfig])⟩

/-- C5: calculate_lot_size fails soft. The embedding is total (the
Python exception paths, including zero divisions, are modelled as
explicit 0.01 branches), and whenever the account snapshot or the symbol
metadata is unavailable the result is the safe minimum lot 0.01. -/
theorem C5_calculate_lot_size_fails_soft :
    (∀ (cfg : Config) (sym : Option SymbolInfo) (jpy : Bool) (price : ℚ),
      calculate_lot_size cfg none sym jpy price = 0.01) ∧
    (∀ (cfg : Config) (a : AccountInfo) (jpy : Bool) (price : ℚ),
      calculate_lot_size cfg (some a) none jpy price = 0.01) :=
  ⟨fun _ _ _ _ => rfl, fun _ _ _ _ => rfl⟩

/-- C6: every recorded trade increments trades_today by one and exactly
one of winning_trades or losing_trades by one, the daily reset zeroes
all three counters, and consequently winning_trades + losing_trades =
trades_today holds after every sequence of record and reset events from
the initial state. -/
theorem C6_stats_invariant :
    (∀ (s : DailyStats) (p : ℚ),
      (record_trade_result p s).trades_today = s.trades_today + 1 ∧
      ((record_trade_result p s).winning_trades = s.winning_trades + 1 ∧
        (record_trade_result p s).losing_trades = s.losing_trades ∨
       (record_trade_result p s).winning_trades = s.winning_trades ∧
        (record_trade_result p s).losing_trades = s.losing_trades + 1)) ∧
    (∀ (a : Option AccountInfo) (s : DailyStats),
      (daily_reset a s).trades_today = 0 ∧
      (daily_reset a s).winning_trades = 0 ∧
      (daily_reset a s).losing_trades = 0) ∧
    (∀ events : List StatsEvent,
      (runEvents events).winning_trades + (runEvents events).losing_trades =
        (runEvents events).trades_today) := by
  refine ⟨?_, ?_, ?_⟩
  · intro s p
    unfold record_trade_result
    split <;> simp
  · intro a s
    cases a <;> simp [daily_reset]
  · intro events
    have h := foldl_applyEvent_inv events initDailyStats (by rfl)
    exact h

/-- C7: with a nonzero existing stop, the trailing-stop routine submits a
modification only when it tightens the stop: strictly above the current
stop for a buy position, strictly below it for a sell position. -/
theorem C7_trailing_stop_never_loosens (position_sl bid ask d point : ℚ)
    (jpy : Bool) (h : position_sl ≠ 0) :
    (∀ s, update_trailing_stop true position_sl bid ask d jpy point = some s →
      position_sl < s) ∧
    (∀ s, update_trailing_stop false position_sl bid ask d jpy point = some s →
      s < position_sl) := by
  constructor <;> intro s hs <;>
  · simp [update_trailing_stop, h] at hs
    exact hs.2 ▸ hs.1

/-- Witness for C7 at a concrete position with stop 5. -/
theorem C7_trailing_stop_never_loosens_witness :
    (5 : ℚ) ≠ 0 ∧
    ((∀ s, update_trailing_stop true 5 10 10 1 false (1/10) = some s → (5 : ℚ) < s) ∧
     (∀ s, update_trailing_stop false 5 10 10 1 false (1/10) = some s → s < 5)) :=
  ⟨by norm_num, C7_trailing_stop_never_loosens 5 10 10 1 (1/10) false (by norm_num)⟩

/-- C8: the daily-profit-target check is advisory only: even when the
daily profit percentage meets or exceeds the target, can_trade returns
true as long as the remaining checks pass. -/
theorem C8_profit_target_advisory (cfg : Config) (a : AccountInfo) (n : ℕ)
    (s : DailyStats)
    (_hprofit : (a.balance - s.start_balance) / s.start_balance * 100 ≥
      cfg.daily_profit_target)
    (h1 : check_daily_loss_limit cfg a s = true)
    (h3 : check_max_drawdown cfg a (bootstrapStart a s) = true)
    (h4 : check_position_limits cfg n = true)
    (h5 : check_loss_streak cfg (bootstrapStart a s) = true)
    (h6 : check_margin_requirements a = true) :
    can_trade cfg (some a) n s = true := by
  simp [can_trade, h1, h3, h4, h5, h6, check_daily_profit_target_true]

/-- Witness for C8: start balance 10000, balance 12000 (daily profit 20
percent, above the default 10 percent target), all other checks
favorable; can_trade is still true. -/
theorem C8_profit_target_advisory_witness :
    ((12000 - 10000 : ℚ) / 10000 * 100 ≥ defaultConfig.daily_profit_target) ∧
    can_trade defaultConfig
      (some { balance := 12000, equity := 12000, margin := 0,
              margin_free := 12000, margin_level := 0 }) 0
      { start_balance := 10000, current_profit := 0, trades_today := 0,
        winning_trades := 0, losing_trades := 0, consecutive_losses := 0 } = true :=
  ⟨by norm_num [defaultConfig],
   C8_profit_target_advisory defaultConfig _ 0 _
    (by norm_num [defaultConfig])
    (by norm_num [check_daily_loss_limit, bootstrapStart, safe_divide, defaultConfig])
    (by norm_num [check_max_drawdown, bootstrapStart, safe_divide, defaultConfig])
    (by norm_num [check_position_limits, defaultConfig])
    (by norm_num [check_loss_streak, bootstrapStart, defaultConfig])
    (by norm_num [check_margin_requirements])⟩

/-- C9: a trade with profit exactly 0 is classified as a loss: the
winning branch requires profit strictly greater than 0, so a zero-profit
trade increments losing_trades and consecutive_losses and leaves
winning_trades unchanged. -/
theorem C9_zero_profit_counts_as_loss (s : DailyStats) :
    (record_trade_result 0 s).losing_trades = s.losing_trades + 1 ∧
    (record_trade_result 0 s).consecutive_losses = s.consecutive_losses + 1 ∧
    (record_trade_result 0 s).winning_trades = s.winning_trades := by
  simp [record_trade_result]

/-- C10: at all three sites (percent stop-loss conversion in the risk
sizer, take-profit/stop-loss computation, trailing-stop distance) the
JPY conditional selects the same expression in both branches, so the pip
size always equals point * 10 regardless of the JPY flag. -/
theorem C10_jpy_pip_size_equiv :
    ∀ (jpy : Bool) (point : ℚ),
      pip_size_risk jpy point = point * 10 ∧
      pip_size_tp_sl jpy point = point * 10 ∧
      pip_size_trailing jpy point = point * 10 := by
  intro jpy point
  cases jpy <;>
    simp [pip_size_risk, pip_size_tp_sl, pip_size_trailing]

end TradeSense
